import Mathlib

/-!
Verification of the resilient WebSocket connection manager and the status
reconciliation layer of the MultiOpcS front-end.

The definitions below are a shallow embedding of the TypeScript sources:

* `WebSocketManager` (the enhanced variant with heartbeat, retry and state
  callbacks) — embedded as a record `MgrState` together with one Lean
  function per method; each method returns the updated state paired with
  the list of externally visible effects it performs (binding creation and
  closing, event emission to the three listener collections, messages sent
  on the wire, timers scheduled).
* `handleWebSocketMessage` of the servers page — embedded as the pure
  function `applyStatusUpdate` on the locally held server collection.
* the listener fan-out of the three callback sets — embedded as the
  functions `fanoutCaught` (per-listener try/catch, used for the data and
  state-change collections) and `fanoutUncaught` (no try/catch, used for
  the error collection).

Timestamps are integers (milliseconds, `Date.now()`); the reconnect delay
is an exact rational since `1.5` and its relevant powers are exactly
representable in the source's floating point arithmetic.
-/

namespace MultiOpcS

/-! ## Reconciliation layer data model (front-end/src/types/index.ts and
front-end/src/lib/websocket.ts) -/

/-- A node attached to a server.  The reconciliation layer never touches
nodes; the structure carries the fields of the TypeScript `Node` interface
(`value_change_config` is `any` in the source and is modelled opaquely as
an optional string). -/
structure Node where
  id : Nat
  name : String
  node_id : String
  data_type : String
  access_level : String
  description : Option String
  initial_value : Option String
  value_change_type : String
  value_change_config : Option String
  value_precision : Option Nat
  deriving Repr, DecidableEq

/-- The `OPCUAServer` interface.  `status` is one of the strings
"stopped" | "starting" | "running" | "error" in the source's type; the
wire payload declares it as a plain string, so it is a `String` here. -/
structure OPCUAServer where
  id : Nat
  name : String
  port : Nat
  endpoint : Option String
  status : String
  last_started : Option String
  created_at : String
  updated_at : Option String
  nodes : List Node
  deriving Repr, DecidableEq

/-- One entry of a `ServerStatusUpdate` payload:
`\x7b id: number; status: string; last_started: string | null \x7d`. -/
structure StatusEntry where
  id : Nat
  status : String
  last_started : Option String
  deriving Repr, DecidableEq

/-- The `data` field of a `ServerStatusUpdate`: a single entry or an
array of entries. -/
inductive UpdateData where
  | one (e : StatusEntry)
  | many (l : List StatusEntry)
  deriving Repr, DecidableEq

/-- The `type` field of a `ServerStatusUpdate`:
`'server_status' | 'initial_status'`. -/
inductive UpdateType where
  | server_status
  | initial_status
  deriving Repr, DecidableEq

/-- A decoded payload frame. -/
structure ServerStatusUpdate where
  type : UpdateType
  data : UpdateData
  deriving Repr, DecidableEq

/-- Function `handleWebSocketMessage` from front-end/src/app/servers/page.tsx.

* `initial_status`: normalise the payload to an array, then map over the
  collection replacing `status` and `last_started` of every server whose
  id matches some payload entry (`updates.find(u => u.id === server.id)`).
* `server_status`: take `data.data[0]` when the payload is an array
  (`Array.isArray(data.data) ? data.data[0] : data.data`), then map over
  the collection overwriting the matching server(s).  Indexing an empty
  array yields `undefined` in the source and the subsequent `update.id`
  access throws; the surrounding try/catch swallows the error and the
  collection is left unchanged, which is the `none` branch here. -/
def applyStatusUpdate (u : ServerStatusUpdate) (servers : List OPCUAServer) :
    List OPCUAServer :=
  match u.type with
  | UpdateType.initial_status =>
      let updates := match u.data with
        | UpdateData.many l => l
        | UpdateData.one e => [e]
      servers.map fun server =>
        match updates.find? (fun up => up.id == server.id) with
        | some up => { server with status := up.status,
                                   last_started := up.last_started }
        | none => server
  | UpdateType.server_status =>
      let firstEntry := match u.data with
        | UpdateData.many l => l.head?
        | UpdateData.one e => some e
      match firstEntry with
      | some up =>
          servers.map fun server =>
            if server.id == up.id then
              { server with status := up.status,
                            last_started := up.last_started }
            else server
      | none => servers

/-! ## Subscriber registry fan-out (part_003, `notifyCallbacks`,
`updateState`, `handleError`) -/

/-- A registered listener, abstracted to its identity and whether its
invocation raises. -/
structure Listener where
  id : Nat
  throws : Bool
  deriving Repr, DecidableEq

/-- Invoking a listener: raises iff `throws`. -/
def invoke (l : Listener) : Except Unit Unit :=
  if l.throws then Except.error () else Except.ok ()

/-- Fan-out with a per-listener try/catch, as in `notifyCallbacks` and
`updateState`: every listener is invoked; a raising listener is caught and
logged and iteration continues.  Returns the ids of the listeners the
event was delivered to. -/
def fanoutCaught : List Listener → List Nat
  | [] => []
  | l :: rest =>
      match invoke l with
      | Except.ok _ => l.id :: fanoutCaught rest
      | Except.error _ => l.id :: fanoutCaught rest

/-- Fan-out with no try/catch, as in `handleError`'s
`this.errorCallbacks.forEach(callback => callback(error))`: a raising
listener aborts the iteration and the exception escapes.  Returns the ids
of the listeners the event was delivered to, paired with whether an
exception escaped the fan-out. -/
def fanoutUncaught : List Listener → List Nat × Bool
  | [] => ([], false)
  | l :: rest =>
      match invoke l with
      | Except.ok _ =>
          let r := fanoutUncaught rest
          (l.id :: r.1, r.2)
      | Except.error _ => ([l.id], true)

/-! ## Connection manager (src/unnamed/part_003) -/

/-- The `WebSocket.readyState` of a transport binding. -/
inductive ReadyState where
  | CONNECTING
  | OPEN
  | CLOSING
  | CLOSED
  deriving Repr, DecidableEq, BEq

/-- A transport binding (an underlying `WebSocket` object), tagged with a
creation index so that distinct bindings are distinguishable. -/
structure Binding where
  bid : Nat
  readyState : ReadyState
  deriving Repr, DecidableEq, BEq

/-- A pending `setTimeout` stored in the single `retryTimeout` slot:
either the delayed `connect()` scheduled by `attemptReconnect`, or the
delayed initial-status re-request scheduled by `retryHandler`. -/
inductive Timer where
  | reconnectConnect (delayMs : ℚ)
  | retrySend (delayMs : Nat)
  deriving Repr, DecidableEq

/-- Externally visible effects of a manager method. -/
inductive Eff where
  | createBinding (bid : Nat)
  | closeBinding (bid : Nat) (code : Option Nat)
  | emitError (code : Nat) (reason : String)
  | stateChange (st : String)
  | notifyData (u : ServerStatusUpdate)
  | send (msg : String)
  | scheduleReconnect (delayMs : ℚ)
  | scheduleRetry (delayMs : Nat)
  | pingStarted (periodMs : Nat)
  | pingStopped
  deriving Repr, DecidableEq

/-- The mutable fields of the `WebSocketManager` instance. -/
structure MgrState where
  ws : Option Binding
  reconnectAttempts : Nat
  maxReconnectAttempts : Nat
  pingPeriodMs : Option Nat
  retryTimeout : Option Timer
  lastPongTime : Int
  isReconnecting : Bool
  autoReconnect : Bool
  nextBindingId : Nat
  deriving Repr, DecidableEq

/-- The manager's field initialisers. -/
def initialMgr : MgrState :=
  { ws := none
    reconnectAttempts := 0
    maxReconnectAttempts := 10
    pingPeriodMs := none
    retryTimeout := none
    lastPongTime := 0
    isReconnecting := false
    autoReconnect := true
    nextBindingId := 0 }

/-- Test `this.ws?.readyState === WebSocket.OPEN`. -/
def wsIsOpen (s : MgrState) : Bool :=
  match s.ws with
  | some b => b.readyState == ReadyState.OPEN
  | none => false

/-- The message sent on open and re-requested after a parse failure:
`JSON.stringify(\x7b type: 'get_initial_status' \x7d)`. -/
def msgGetInitialStatus : String :=
  "\x7b\"type\":\"get_initial_status\"\x7d"

/-- Backoff delay `min(1000 * Math.pow(1.5, attempts - 1), 30000)` as
computed by `attemptReconnect` when `reconnectAttempts` has just been
incremented to `attempts`. -/
def reconnectDelay (attempts : Nat) : ℚ :=
  min (1000 * (3 / 2 : ℚ) ^ (attempts - 1)) 30000

/-- Method `attemptReconnect`.  The exhausted branch inlines
`handleError(\x7b code: 1000, reason: 'Max reconnection attempts reached' \x7d)`:
that call emits the error and the ERROR state change and, since the code
is `1000` and not `1006`, does not recurse into `attemptReconnect`. -/
def attemptReconnect (s : MgrState) : MgrState × List Eff :=
  if s.isReconnecting || !s.autoReconnect then (s, [])
  else if s.reconnectAttempts < s.maxReconnectAttempts then
    let attempts := s.reconnectAttempts + 1
    let delay := reconnectDelay attempts
    ({ s with isReconnecting := true
              reconnectAttempts := attempts
              retryTimeout := some (Timer.reconnectConnect delay) },
     [Eff.stateChange "RECONNECTING", Eff.scheduleReconnect delay])
  else
    ({ s with autoReconnect := false },
     [Eff.emitError 1000 "Max reconnection attempts reached",
      Eff.stateChange "ERROR"])

/-- Method `handleError`: fan the error out to the error listeners, broadcast the
ERROR state, and reconnect when the code is the abnormal-closure `1006`
and automatic reconnection is enabled. -/
def handleError (code : Nat) (reason : String) (s : MgrState) :
    MgrState × List Eff :=
  let effs := [Eff.emitError code reason, Eff.stateChange "ERROR"]
  if code == 1006 && s.autoReconnect then
    let r := attemptReconnect s
    (r.1, effs ++ r.2)
  else (s, effs)

/-- Method `connect()`.  Here `ctorOk` tells whether `new WebSocket(wsUrl)` succeeds;
when it throws, the catch block runs `handleError(\x7b1006, ...\x7d)` followed
by a second `attemptReconnect()`. -/
def connect (ctorOk : Bool) (s : MgrState) : MgrState × List Eff :=
  if s.isReconnecting || wsIsOpen s then (s, [])
  else if ctorOk then
    ({ s with ws := some { bid := s.nextBindingId,
                           readyState := ReadyState.CONNECTING }
              nextBindingId := s.nextBindingId + 1 },
     [Eff.createBinding s.nextBindingId, Eff.stateChange "CONNECTING"])
  else
    let r1 := handleError 1006 "Connection failed" s
    let r2 := attemptReconnect r1.1
    (r2.1, r1.2 ++ r2.2)

/-- Method `startPing` (sans the interval callback, which is `pingTick` below):
clears any previous interval and registers a 15000 ms periodic timer. -/
def startPing (s : MgrState) : MgrState × List Eff :=
  ({ s with pingPeriodMs := some 15000 }, [Eff.pingStarted 15000])

/-- Method `stopPing`. -/
def stopPing (s : MgrState) : MgrState × List Eff :=
  ({ s with pingPeriodMs := none },
   if s.pingPeriodMs.isSome then [Eff.pingStopped] else [])

/-- Method `handleOpen`, called by the transport once the binding's readyState
has become OPEN: clears the reconnecting flag, resets the attempt
counter, records the pong timestamp, starts the heartbeat, broadcasts
OPEN and requests the initial status. -/
def handleOpen (now : Int) (s : MgrState) : MgrState × List Eff :=
  let s1 := { s with isReconnecting := false
                     reconnectAttempts := 0
                     lastPongTime := now }
  let r2 := startPing s1
  let effs := r2.2 ++ [Eff.stateChange "OPEN"]
  if wsIsOpen r2.1 then
    (r2.1, effs ++ [Eff.send msgGetInitialStatus])
  else (r2.1, effs)

/-- Method `handleClose`: stop the heartbeat, clear the retry timer, broadcast
CLOSED, and reconnect unless the closure was normal (`1000`), a reconnect
is already in flight, or automatic reconnection is disabled. -/
def handleClose (code : Nat) (s : MgrState) : MgrState × List Eff :=
  let r1 := stopPing s
  let s2 := { r1.1 with retryTimeout := none }
  let effs := r1.2 ++ [Eff.stateChange "CLOSED"]
  if s2.autoReconnect && !s2.isReconnecting && code != 1000 then
    let r3 := attemptReconnect s2
    (r3.1, effs ++ r3.2)
  else (s2, effs)

/-- Method `reconnect`: discard the current binding (`ws.close(); ws = null`)
and fall through to `attemptReconnect`. -/
def reconnect (s : MgrState) : MgrState × List Eff :=
  match s.ws with
  | some b =>
      let r := attemptReconnect { s with ws := none }
      (r.1, Eff.closeBinding b.bid none :: r.2)
  | none => attemptReconnect s

/-- Method `retryHandler`: clear any pending retry timer, then schedule a single
1000 ms delayed re-request of the initial status. -/
def retryHandler (s : MgrState) : MgrState × List Eff :=
  ({ s with retryTimeout := some (Timer.retrySend 1000) },
   [Eff.scheduleRetry 1000])

/-- The callback of the timer scheduled by `retryHandler`: re-send the
initial-status request iff the binding is still OPEN. -/
def retryFire (s : MgrState) : MgrState × List Eff :=
  if wsIsOpen s then (s, [Eff.send msgGetInitialStatus]) else (s, [])

/-- A raw frame as seen by `handleMessage`: the literal `'pong'` control
token, a payload that `JSON.parse` decodes, or a payload on which
`JSON.parse` throws. -/
inductive Frame where
  | pong
  | valid (u : ServerStatusUpdate)
  | malformed
  deriving Repr, DecidableEq

/-- Method `handleMessage`: intercept `'pong'` as a control frame; deliver a
decoded payload to the data listeners; on a parse failure run
`handleError(\x7b1007, 'Invalid message format'\x7d)` followed by
`retryHandler()`. -/
def handleMessage (now : Int) (f : Frame) (s : MgrState) :
    MgrState × List Eff :=
  match f with
  | Frame.pong => ({ s with lastPongTime := now }, [])
  | Frame.valid u => (s, [Eff.notifyData u])
  | Frame.malformed =>
      let r1 := handleError 1007 "Invalid message format" s
      let r2 := retryHandler r1.1
      (r2.1, r1.2 ++ r2.2)

/-- The body of the 15000 ms interval registered by `startPing`:
while the binding is OPEN, force a reconnect if more than 20000 ms have
passed since the last pong, otherwise send a `'ping'` probe (forcing a
reconnect if the send throws, which `sendOk` signals); with no open
binding, force a reconnect. -/
def pingTick (now : Int) (sendOk : Bool) (s : MgrState) :
    MgrState × List Eff :=
  if wsIsOpen s then
    if now - s.lastPongTime > 20000 then reconnect s
    else if sendOk then (s, [Eff.send "ping"])
    else reconnect s
  else reconnect s

/-- Method `getState`: derived from the binding's `readyState` (`'CLOSED'` when
there is no binding).  The source's `default: return 'UNKNOWN'` arm is
unreachable for a well-formed `readyState` and has no counterpart here. -/
def getState (s : MgrState) : String :=
  match s.ws with
  | none => "CLOSED"
  | some b =>
      match b.readyState with
      | ReadyState.CONNECTING => "CONNECTING"
      | ReadyState.OPEN => "OPEN"
      | ReadyState.CLOSING => "CLOSING"
      | ReadyState.CLOSED => "CLOSED"

/-- Method `close()`: permanently disable automatic reconnection, clear the
reconnecting flag and all timers, and close and discard the binding with
the normal-closure code 1000. -/
def closeMgr (s : MgrState) : MgrState × List Eff :=
  let r1 := stopPing { s with autoReconnect := false, isReconnecting := false }
  let s2 := { r1.1 with retryTimeout := none }
  match s2.ws with
  | some b => ({ s2 with ws := none }, r1.2 ++ [Eff.closeBinding b.bid (some 1000)])
  | none => (s2, r1.2)

/-! ## Helper lemmas -/

/-- Lemma: `attemptReconnect` never touches the binding reference. -/
lemma attemptReconnect_ws (s : MgrState) : (attemptReconnect s).1.ws = s.ws := by
  unfold attemptReconnect
  split_ifs <;> rfl

/-- Lemma: `attemptReconnect` performs no binding creation. -/
lemma attemptReconnect_no_create (s : MgrState) (n : Nat) :
    Eff.createBinding n ∉ (attemptReconnect s).2 := by
  unfold attemptReconnect
  split_ifs <;> simp

/-- Lemma: `attemptReconnect` is a no-op once automatic reconnection is off. -/
lemma attemptReconnect_off (s : MgrState) (h : s.autoReconnect = false) :
    attemptReconnect s = (s, []) := by
  unfold attemptReconnect
  simp [h]

/-- Lemma: `attemptReconnect` is a no-op while a reconnect is already in flight. -/
lemma attemptReconnect_busy (s : MgrState) (h : s.isReconnecting = true) :
    attemptReconnect s = (s, []) := by
  unfold attemptReconnect
  simp [h]

/-! ## Claim C1 -/

/-- Concrete state: the manager right after its constructor's `connect()`
— one binding, still CONNECTING, no reconnect in flight. -/
def sConnecting : MgrState := (connect true initialMgr).1

/-- Claim C1 as stated is false: while the connection state is CONNECTING
(and no reconnect is in flight), a second `connect()` is not a no-op — it
creates a second binding and overwrites the reference to the first
without closing it. -/
theorem C1_counterexample :
    getState sConnecting = "CONNECTING" ∧
    sConnecting.isReconnecting = false ∧
    connect true sConnecting ≠ (sConnecting, []) ∧
    Eff.createBinding 1 ∈ (connect true sConnecting).2 ∧
    (∀ c, Eff.closeBinding 0 c ∉ (connect true sConnecting).2) ∧
    (connect true sConnecting).1.ws =
      some { bid := 1, readyState := ReadyState.CONNECTING } := by
  refine ⟨rfl, rfl, by decide, by decide, ?_, rfl⟩
  have h2 : (connect true sConnecting).2 =
      [Eff.createBinding 1, Eff.stateChange "CONNECTING"] := rfl
  intro c
  rw [h2]
  simp

/-- Claim C1 (amended): `connect()` is a no-op while a reconnect is in
flight or while the binding is OPEN — but not while merely CONNECTING —
and a reconnect cycle discards the previous binding (closes it and clears
the reference) before any new binding can be created: the reconnect path
itself creates no binding. -/
theorem C1_single_binding (ok : Bool) (s t : MgrState) (b : Binding)
    (h : s.isReconnecting = true ∨ wsIsOpen s = true)
    (hb : t.ws = some b) :
    connect ok s = (s, []) ∧
    (reconnect t).1.ws = none ∧
    Eff.closeBinding b.bid none ∈ (reconnect t).2 ∧
    (∀ n : Nat, Eff.createBinding n ∉ (reconnect t).2) := by
  refine ⟨?_, ?_, ?_, ?_⟩
  · rcases h with h | h <;> simp [connect, h]
  · simp [reconnect, hb, attemptReconnect_ws]
  · simp [reconnect, hb]
  · intro n
    simp [reconnect, hb, attemptReconnect_no_create t n,
      attemptReconnect_no_create { t with ws := none } n]

/-- Witness for `C1_single_binding` at a concrete OPEN manager state. -/
theorem C1_single_binding_witness :
    connect true { initialMgr with ws := some { bid := 0, readyState := ReadyState.OPEN },
                                   nextBindingId := 1 } =
      ({ initialMgr with ws := some { bid := 0, readyState := ReadyState.OPEN },
                         nextBindingId := 1 }, []) ∧
    (reconnect { initialMgr with ws := some { bid := 0, readyState := ReadyState.OPEN },
                                 nextBindingId := 1 }).1.ws = none ∧
    Eff.closeBinding 0 none ∈
      (reconnect { initialMgr with ws := some { bid := 0, readyState := ReadyState.OPEN },
                                   nextBindingId := 1 }).2 ∧
    (∀ n : Nat, Eff.createBinding n ∉
      (reconnect { initialMgr with ws := some { bid := 0, readyState := ReadyState.OPEN },
                                   nextBindingId := 1 }).2) :=
  C1_single_binding true
    { initialMgr with ws := some { bid := 0, readyState := ReadyState.OPEN },
                      nextBindingId := 1 }
    { initialMgr with ws := some { bid := 0, readyState := ReadyState.OPEN },
                      nextBindingId := 1 }
    { bid := 0, readyState := ReadyState.OPEN }
    (Or.inr rfl) rfl

/-! ## Claim C2 -/

/-- Claim C2: whenever `attemptReconnect` schedules the n-th attempt
(counter incremented from n-1 to n), the scheduled delay is
`min(1000 * 1.5^(n-1), 30000)` exactly; the delay function is
non-decreasing in the attempt number and never exceeds 30000. -/
theorem C2_backoff_delay (s : MgrState)
    (h1 : s.isReconnecting = false) (h2 : s.autoReconnect = true)
    (h3 : s.reconnectAttempts < s.maxReconnectAttempts) :
    (attemptReconnect s).2 =
      [Eff.stateChange "RECONNECTING",
       Eff.scheduleReconnect (min (1000 * (3 / 2 : ℚ) ^ s.reconnectAttempts) 30000)] ∧
    (∀ n m : Nat, n ≤ m → reconnectDelay n ≤ reconnectDelay m) ∧
    (∀ n : Nat, reconnectDelay n ≤ 30000) := by
  refine ⟨?_, ?_, ?_⟩
  · simp [attemptReconnect, h1, h2, h3, reconnectDelay]
  · intro n m hnm
    unfold reconnectDelay
    refine min_le_min ?_ le_rfl
    refine mul_le_mul_of_nonneg_left ?_ (by norm_num)
    exact pow_le_pow_right₀ (by norm_num) (Nat.sub_le_sub_right hnm 1)
  · intro n
    exact min_le_right _ _

/-- Witness for `C2_backoff_delay`: the first attempt from a fresh
manager is scheduled with delay `min(1000 * 1.5^0, 30000)`. -/
theorem C2_backoff_delay_witness :
    (attemptReconnect initialMgr).2 =
      [Eff.stateChange "RECONNECTING",
       Eff.scheduleReconnect (min (1000 * (3 / 2 : ℚ) ^ (0 : Nat)) 30000)] ∧
    (∀ n m : Nat, n ≤ m → reconnectDelay n ≤ reconnectDelay m) ∧
    (∀ n : Nat, reconnectDelay n ≤ 30000) :=
  C2_backoff_delay initialMgr rfl rfl (by decide)

/-! ## Claim C3 -/

/-- Concrete state with the attempt counter at the maximum: the next
`attemptReconnect` is exhausted. -/
def sExhausted : MgrState := { initialMgr with reconnectAttempts := 10 }

/-- Claim C3 as stated is false in its last part: after exhaustion a
manual `connect()` does proceed (it creates a binding) but does not reset
the attempt counter — the counter stays at 10, and no further delay
computation is preceded by a reset. -/
theorem C3_counterexample :
    (attemptReconnect sExhausted).1.autoReconnect = false ∧
    Eff.createBinding 0 ∈ (connect true (attemptReconnect sExhausted).1).2 ∧
    (connect true (attemptReconnect sExhausted).1).1.reconnectAttempts = 10 ∧
    (connect true (attemptReconnect sExhausted).1).1.reconnectAttempts ≠ 0 := by
  decide

/-- Claim C3 (amended): once the attempt counter has reached the maximum,
`attemptReconnect` emits the exhaustion ErrorEvent, broadcasts ERROR, and
permanently disables automatic reconnection, so no further reconnect is
ever scheduled; a later `connect()` call does not reset the attempt
counter — the counter is reset to zero only by the transition into OPEN
(`handleOpen`). -/
theorem C3_exhaustion (s : MgrState) (now : Int)
    (h1 : s.isReconnecting = false) (h2 : s.autoReconnect = true)
    (h3 : s.maxReconnectAttempts ≤ s.reconnectAttempts) :
    attemptReconnect s =
      ({ s with autoReconnect := false },
       [Eff.emitError 1000 "Max reconnection attempts reached",
        Eff.stateChange "ERROR"]) ∧
    (∀ t : MgrState, t.autoReconnect = false → attemptReconnect t = (t, [])) ∧
    (∀ ok : Bool,
      (connect ok (attemptReconnect s).1).1.reconnectAttempts = s.reconnectAttempts) ∧
    (∀ t : MgrState, (handleOpen now t).1.reconnectAttempts = 0) := by
  have hmain : attemptReconnect s =
      ({ s with autoReconnect := false },
       [Eff.emitError 1000 "Max reconnection attempts reached",
        Eff.stateChange "ERROR"]) := by
    unfold attemptReconnect
    simp [h1, h2, Nat.not_lt.mpr h3]
  refine ⟨hmain, fun t ht => attemptReconnect_off t ht, ?_, ?_⟩
  · intro ok
    rw [hmain]
    unfold connect handleError attemptReconnect
    split_ifs <;> simp_all
  · intro t
    unfold handleOpen startPing
    dsimp only
    split <;> rfl

/-- Witness for `C3_exhaustion` at the concrete exhausted state. -/
theorem C3_exhaustion_witness :
    attemptReconnect sExhausted =
      ({ sExhausted with autoReconnect := false },
       [Eff.emitError 1000 "Max reconnection attempts reached",
        Eff.stateChange "ERROR"]) ∧
    (∀ t : MgrState, t.autoReconnect = false → attemptReconnect t = (t, [])) ∧
    (∀ ok : Bool,
      (connect ok (attemptReconnect sExhausted).1).1.reconnectAttempts =
        sExhausted.reconnectAttempts) ∧
    (∀ t : MgrState, (handleOpen 0 t).1.reconnectAttempts = 0) :=
  C3_exhaustion sExhausted 0 rfl rfl (by decide)

/-! ## Claim C4 -/

/-- Claim C4: the heartbeat interval runs every 15000 ms; on a tick it
sends a `'ping'` probe when the last pong is no older than 20000 ms, and
when more than 20000 ms have elapsed since the last pong it triggers
exactly one forced reconnect cycle — the binding is closed and one
reconnect is scheduled through the same `attemptReconnect` path an
abnormal close takes — and further ticks from the resulting state neither
crash (every handler is a total function) nor schedule a duplicate
reconnect. -/
theorem C4_heartbeat (s : MgrState) (b : Binding) (now now2 : Int) (sendOk : Bool)
    (hb : s.ws = some b) (hopen : b.readyState = ReadyState.OPEN)
    (hstale : now - s.lastPongTime > 20000)
    (h1 : s.isReconnecting = false) (h2 : s.autoReconnect = true)
    (h3 : s.reconnectAttempts < s.maxReconnectAttempts) :
    (∀ t : MgrState, (handleOpen now2 t).1.pingPeriodMs = some 15000) ∧
    pingTick now sendOk s =
      ({ s with ws := none
                isReconnecting := true
                reconnectAttempts := s.reconnectAttempts + 1
                retryTimeout := some (Timer.reconnectConnect
                  (reconnectDelay (s.reconnectAttempts + 1))) },
       [Eff.closeBinding b.bid none, Eff.stateChange "RECONNECTING",
        Eff.scheduleReconnect (reconnectDelay (s.reconnectAttempts + 1))]) ∧
    (∀ (t : MgrState) (now3 : Int) (ok3 : Bool),
      t.isReconnecting = true → t.ws = none → pingTick now3 ok3 t = (t, [])) ∧
    (∀ (t : MgrState) (bt : Binding) (now4 : Int),
      t.ws = some bt → bt.readyState = ReadyState.OPEN →
      now4 - t.lastPongTime ≤ 20000 → pingTick now4 true t = (t, [Eff.send "ping"])) := by
  refine ⟨?_, ?_, ?_, ?_⟩
  · intro t
    unfold handleOpen startPing
    dsimp only
    split <;> rfl
  · unfold pingTick
    rw [if_pos (by simp [wsIsOpen, hb, hopen]; rfl), if_pos hstale]
    unfold reconnect
    rw [hb]
    unfold attemptReconnect
    simp [h1, h2, h3]
  · intro t now3 ok3 hrec hws
    unfold pingTick
    rw [if_neg (by simp [wsIsOpen, hws])]
    unfold reconnect
    rw [hws]
    exact attemptReconnect_busy t hrec
  · intro t bt now4 hws hrs hfresh
    unfold pingTick
    rw [if_pos (by simp [wsIsOpen, hws, hrs]; rfl), if_neg (by omega), if_pos rfl]

/-- Witness for `C4_heartbeat`: a concrete OPEN manager whose last pong
is 20001 ms old. -/
theorem C4_heartbeat_witness :
    (∀ t : MgrState, (handleOpen 0 t).1.pingPeriodMs = some 15000) ∧
    pingTick 20001 true
      { initialMgr with ws := some { bid := 0, readyState := ReadyState.OPEN },
                        nextBindingId := 1 } =
      ({ { initialMgr with ws := some { bid := 0, readyState := ReadyState.OPEN },
                           nextBindingId := 1 } with
          ws := none
          isReconnecting := true
          reconnectAttempts := 1
          retryTimeout := some (Timer.reconnectConnect (reconnectDelay 1)) },
       [Eff.closeBinding 0 none, Eff.stateChange "RECONNECTING",
        Eff.scheduleReconnect (reconnectDelay 1)]) ∧
    (∀ (t : MgrState) (now3 : Int) (ok3 : Bool),
      t.isReconnecting = true → t.ws = none → pingTick now3 ok3 t = (t, [])) ∧
    (∀ (t : MgrState) (bt : Binding) (now4 : Int),
      t.ws = some bt → bt.readyState = ReadyState.OPEN →
      now4 - t.lastPongTime ≤ 20000 → pingTick now4 true t = (t, [Eff.send "ping"])) :=
  C4_heartbeat
    { initialMgr with ws := some { bid := 0, readyState := ReadyState.OPEN },
                      nextBindingId := 1 }
    { bid := 0, readyState := ReadyState.OPEN }
    20001 0 true rfl rfl (by decide) rfl rfl (by decide)

/-! ## Claim C5 -/

/-- Concrete state: one binding whose transport has just closed
abnormally (the first connection failure arrives as `handleClose`). -/
def sClosedB : MgrState :=
  { initialMgr with ws := some { bid := 0, readyState := ReadyState.CLOSED },
                    nextBindingId := 1 }

/-- After the first abnormal close. -/
def c5AfterFail1 : MgrState := (handleClose 1006 sClosedB).1

/-- After a second abnormal close with no intervening OPEN. -/
def c5AfterFail2 : MgrState := (handleClose 1006 c5AfterFail1).1

/-- After a subsequent successful open (the transport has installed a new
OPEN binding before `handleOpen` fires). -/
def c5AfterOpen : MgrState :=
  (handleOpen 0 { c5AfterFail2 with
    ws := some { bid := 1, readyState := ReadyState.OPEN } }).1

/-- After one further abnormal close following the successful open. -/
def c5AfterFail3 : MgrState := (handleClose 1006 c5AfterOpen).1

/-- Claim C5 as stated is false in its scenario: after two failed
attempts the counter is 1, not 2 — the second failure event arrives while
`isReconnecting` is still set, so `attemptReconnect` refuses to increment. -/
theorem C5_counterexample :
    c5AfterFail1.reconnectAttempts = 1 ∧
    c5AfterFail2.reconnectAttempts = 1 ∧
    c5AfterFail2.reconnectAttempts ≠ 2 := by
  refine ⟨rfl, rfl, by decide⟩

/-- Claim C5 (amended): the counter resets to exactly 0 on every
transition into OPEN; it is incremented (entering RECONNECTING) only when
no reconnect is in flight, automatic reconnection is enabled and attempts
remain, and is left unchanged otherwise — so consecutive failure events
without an intervening OPEN increment it only once.  In the spec's
scenario the counts are 1 after the first failure, still 1 after the
second, 0 after the successful open, and 1 after one further failure
(matching the claim's final value of 1, though not its intermediate 2). -/
theorem C5_attempt_counter (now : Int) :
    (∀ s : MgrState, (handleOpen now s).1.reconnectAttempts = 0) ∧
    (∀ v : MgrState, v.isReconnecting = true →
      (attemptReconnect v).1.reconnectAttempts = v.reconnectAttempts) ∧
    (∀ v : MgrState, v.autoReconnect = false →
      (attemptReconnect v).1.reconnectAttempts = v.reconnectAttempts) ∧
    (∀ v : MgrState, v.isReconnecting = false → v.autoReconnect = true →
      v.reconnectAttempts < v.maxReconnectAttempts →
      (attemptReconnect v).1.reconnectAttempts = v.reconnectAttempts + 1 ∧
      (attemptReconnect v).1.isReconnecting = true) ∧
    c5AfterFail1.reconnectAttempts = 1 ∧
    c5AfterFail2.reconnectAttempts = 1 ∧
    c5AfterOpen.reconnectAttempts = 0 ∧
    c5AfterFail3.reconnectAttempts = 1 := by
  refine ⟨?_, ?_, ?_, ?_, rfl, rfl, rfl, rfl⟩
  · intro s
    unfold handleOpen startPing
    dsimp only
    split <;> rfl
  · intro v hv
    rw [attemptReconnect_busy v hv]
  · intro v hv
    rw [attemptReconnect_off v hv]
  · intro v h1 h2 h3
    unfold attemptReconnect
    simp [h1, h2, h3]

/-- Witness for `C5_attempt_counter`: the first failure from a fresh
manager increments the counter to 1. -/
theorem C5_attempt_counter_witness :
    (attemptReconnect initialMgr).1.reconnectAttempts = 1 ∧
    (attemptReconnect initialMgr).1.isReconnecting = true :=
  (C5_attempt_counter 0).2.2.2.1 initialMgr rfl rfl (by decide)

/-! ## Claim C6 -/

/-- Claim C6: a payload frame that fails to deserialize makes
`handleMessage` emit the malformed-message ErrorEvent (code 1007) and
schedule a single 1000 ms retry of the initial-status request (the single
`retryTimeout` slot is overwritten, never stacked); the binding is left
untouched — nothing is closed and no reconnect is scheduled, so an OPEN
connection stays OPEN — and when the retry fires on a still-OPEN binding
it re-sends `get_initial_status`. -/
theorem C6_malformed_recovery (now : Int) (s : MgrState) :
    handleMessage now Frame.malformed s =
      ({ s with retryTimeout := some (Timer.retrySend 1000) },
       [Eff.emitError 1007 "Invalid message format", Eff.stateChange "ERROR",
        Eff.scheduleRetry 1000]) ∧
    (handleMessage now Frame.malformed s).1.ws = s.ws ∧
    (∀ (bid : Nat) (c : Option Nat),
      Eff.closeBinding bid c ∉ (handleMessage now Frame.malformed s).2) ∧
    (∀ d : ℚ, Eff.scheduleReconnect d ∉ (handleMessage now Frame.malformed s).2) ∧
    (∀ t : MgrState, wsIsOpen t = true →
      retryFire t = (t, [Eff.send msgGetInitialStatus])) := by
  have hmain : handleMessage now Frame.malformed s =
      ({ s with retryTimeout := some (Timer.retrySend 1000) },
       [Eff.emitError 1007 "Invalid message format", Eff.stateChange "ERROR",
        Eff.scheduleRetry 1000]) := rfl
  refine ⟨hmain, by rw [hmain], ?_, ?_, ?_⟩
  · intro bid c
    rw [hmain]
    simp
  · intro d
    rw [hmain]
    simp
  · intro t ht
    unfold retryFire
    rw [if_pos ht]

/-- Witness for `C6_malformed_recovery` at a concrete OPEN manager. -/
theorem C6_malformed_recovery_witness :
    handleMessage 5 Frame.malformed
      { initialMgr with ws := some { bid := 0, readyState := ReadyState.OPEN },
                        nextBindingId := 1 } =
      ({ { initialMgr with ws := some { bid := 0, readyState := ReadyState.OPEN },
                           nextBindingId := 1 } with
          retryTimeout := some (Timer.retrySend 1000) },
       [Eff.emitError 1007 "Invalid message format", Eff.stateChange "ERROR",
        Eff.scheduleRetry 1000]) ∧
    (handleMessage 5 Frame.malformed
      { initialMgr with ws := some { bid := 0, readyState := ReadyState.OPEN },
                        nextBindingId := 1 }).1.ws =
      some { bid := 0, readyState := ReadyState.OPEN } ∧
    retryFire
      { initialMgr with ws := some { bid := 0, readyState := ReadyState.OPEN },
                        nextBindingId := 1 } =
      ({ initialMgr with ws := some { bid := 0, readyState := ReadyState.OPEN },
                         nextBindingId := 1 },
       [Eff.send msgGetInitialStatus]) := by
  have h := C6_malformed_recovery 5
    { initialMgr with ws := some { bid := 0, readyState := ReadyState.OPEN },
                      nextBindingId := 1 }
  exact ⟨h.1, h.2.1, h.2.2.2.2 _ rfl⟩

/-! ## Claim C7 -/

/-- Every listener id shows up in a per-listener try/catch fan-out,
whether or not the listener raises. -/
lemma fanoutCaught_eq (reg : List Listener) :
    fanoutCaught reg = reg.map Listener.id := by
  induction reg with
  | nil => rfl
  | cons x rest ih => cases hx : x.throws <;> simp [fanoutCaught, invoke, hx, ih]

/-- An uncaught fan-out over throw-free listeners delivers to everyone
and no exception escapes. -/
lemma fanoutUncaught_ok (reg : List Listener) (h : ∀ x ∈ reg, x.throws = false) :
    fanoutUncaught reg = (reg.map Listener.id, false) := by
  induction reg with
  | nil => rfl
  | cons x rest ih =>
      have hx : x.throws = false := h x (by simp)
      have ih' := ih (fun y hy => h y (by simp [hy]))
      simp [fanoutUncaught, invoke, hx, ih']

/-- An uncaught fan-out stops at the first raising listener: delivery
reaches the throw-free prefix and the thrower itself, the exception
escapes, and nothing after the thrower is delivered. -/
lemma fanoutUncaught_thrower (pre post : List Listener) (l : Listener)
    (hl : l.throws = true) (hpre : ∀ x ∈ pre, x.throws = false) :
    fanoutUncaught (pre ++ l :: post) = ((pre ++ [l]).map Listener.id, true) := by
  induction pre with
  | nil => simp [fanoutUncaught, invoke, hl]
  | cons x rest ih =>
      have hx : x.throws = false := hpre x (by simp)
      have ih' := ih (fun y hy => hpre y (by simp [hy]))
      simp [fanoutUncaught, invoke, hx, ih']

/-- Claim C7 as stated is false for the error-listener collection:
`handleError`'s fan-out has no per-listener try/catch, so a raising error
listener prevents delivery to the listeners registered after it — here
listener 1 is registered but never receives the event. -/
theorem C7_counterexample :
    Listener.mk 1 false ∈ [Listener.mk 0 true, Listener.mk 1 false] ∧
    fanoutCaught [Listener.mk 0 true, Listener.mk 1 false] = [0, 1] ∧
    fanoutUncaught [Listener.mk 0 true, Listener.mk 1 false] = ([0], true) ∧
    (1 : Nat) ∉ (fanoutUncaught [Listener.mk 0 true, Listener.mk 1 false]).1 := by
  decide

/-- Claim C7 (amended): for the data-listener and state-change-listener
collections the fan-out wraps each invocation in try/catch, so a raising
listener is caught and logged and every currently registered listener
still receives the event (and none is removed — the fan-out never
mutates the registry).  The error-listener collection is the exception:
its fan-out has no try/catch, so delivery reaches the throw-free prefix
and the first raising listener and then stops, the exception escaping. -/
theorem C7_fanout_isolation (reg pre post : List Listener) (l : Listener)
    (hl : l.throws = true) (hpre : ∀ x ∈ pre, x.throws = false) :
    fanoutCaught reg = reg.map Listener.id ∧
    ((∀ x ∈ reg, x.throws = false) →
      fanoutUncaught reg = (reg.map Listener.id, false)) ∧
    fanoutUncaught (pre ++ l :: post) = ((pre ++ [l]).map Listener.id, true) :=
  ⟨fanoutCaught_eq reg, fanoutUncaught_ok reg,
   fanoutUncaught_thrower pre post l hl hpre⟩

/-- Witness for `C7_fanout_isolation` on concrete registries. -/
theorem C7_fanout_isolation_witness :
    fanoutCaught [Listener.mk 4 true, Listener.mk 5 false] =
      [Listener.mk 4 true, Listener.mk 5 false].map Listener.id ∧
    ((∀ x ∈ [Listener.mk 4 true, Listener.mk 5 false], x.throws = false) →
      fanoutUncaught [Listener.mk 4 true, Listener.mk 5 false] =
        ([Listener.mk 4 true, Listener.mk 5 false].map Listener.id, false)) ∧
    fanoutUncaught ([Listener.mk 6 false] ++ Listener.mk 7 true :: [Listener.mk 8 false]) =
      (([Listener.mk 6 false] ++ [Listener.mk 7 true]).map Listener.id, true) :=
  C7_fanout_isolation [Listener.mk 4 true, Listener.mk 5 false]
    [Listener.mk 6 false] [Listener.mk 8 false] (Listener.mk 7 true)
    rfl (by decide)

/-! ## Claims C8 and C9: reconciliation -/

/-- A server record with the given id and status and fixed remaining
fields, for concrete reconciliation scenarios. -/
def mkServer (i : Nat) (st : String) : OPCUAServer :=
  { id := i
    name := "srv"
    port := 4840
    endpoint := none
    status := st
    last_started := none
    created_at := "2024-01-01"
    updated_at := none
    nodes := [] }

/-- The payload normalised to a list of entries, as the page's
`Array.isArray(data.data) ? data.data : [data.data]`. -/
def updatesOf : UpdateData → List StatusEntry
  | UpdateData.many es => es
  | UpdateData.one e => [e]

/-- The per-entity overwrite of the two mutable fields. -/
def overwriteEntry (e : StatusEntry) (server : OPCUAServer) : OPCUAServer :=
  { server with status := e.status, last_started := e.last_started }

/-- Does some entry of the envelope's payload carry the server's id? -/
def entryMatches (u : ServerStatusUpdate) (server : OPCUAServer) : Bool :=
  (updatesOf u.data).any (fun up => up.id == server.id)

/-- Claim C8 as stated is false: for a `server_status` envelope whose
payload is an array of several entries, only the first entry is applied —
server 2 matches the second payload entry yet keeps its old status. -/
theorem C8_counterexample :
    applyStatusUpdate
      { type := UpdateType.server_status
        data := UpdateData.many
          [{ id := 1, status := "running", last_started := none },
           { id := 2, status := "running", last_started := none }] }
      [mkServer 1 "stopped", mkServer 2 "stopped"] =
      [mkServer 1 "running", mkServer 2 "stopped"] ∧
    (applyStatusUpdate
      { type := UpdateType.server_status
        data := UpdateData.many
          [{ id := 1, status := "running", last_started := none },
           { id := 2, status := "running", last_started := none }] }
      [mkServer 1 "stopped", mkServer 2 "stopped"]).map OPCUAServer.status ≠
      ["running", "running"] := by
  decide

/-- Claim C8 (amended): for a `server_status` envelope the per-id
overwrite rule is applied with only the first payload entry when the
payload is an array — every local entity whose id equals that first
entry's id receives the update and the remaining array entries are
ignored — and with the entry itself when the payload is a single record. -/
theorem C8_incremental_first_only (l : List OPCUAServer) (e : StatusEntry)
    (rest : List StatusEntry) :
    applyStatusUpdate
      { type := UpdateType.server_status, data := UpdateData.many (e :: rest) } l =
      l.map (fun server =>
        if server.id == e.id then
          { server with status := e.status, last_started := e.last_started }
        else server) ∧
    applyStatusUpdate
      { type := UpdateType.server_status, data := UpdateData.one e } l =
      l.map (fun server =>
        if server.id == e.id then
          { server with status := e.status, last_started := e.last_started }
        else server) := by
  exact ⟨rfl, rfl⟩

/-- Builds a `Forall₂` between a list and its image under a map, given the
pointwise relation. -/
lemma forall2_map_self {α : Type} (R : α → α → Prop) (f : α → α)
    (h : ∀ x, R x (f x)) : ∀ l : List α, List.Forall₂ R l (l.map f)
  | [] => List.Forall₂.nil
  | x :: rest => List.Forall₂.cons (h x) (forall2_map_self R f h rest)

/-- Lemma: `applyStatusUpdate` is always a per-element map that preserves every
field except `status` and `last_started` and fixes the elements the
payload does not match. -/
lemma applyStatusUpdate_shape (u : ServerStatusUpdate) :
    ∃ f : OPCUAServer → OPCUAServer,
      (∀ l : List OPCUAServer, applyStatusUpdate u l = l.map f) ∧
      ∀ x : OPCUAServer,
        (f x).id = x.id ∧ (f x).name = x.name ∧ (f x).port = x.port ∧
        (f x).endpoint = x.endpoint ∧ (f x).created_at = x.created_at ∧
        (f x).updated_at = x.updated_at ∧ (f x).nodes = x.nodes ∧
        (entryMatches u x = false → f x = x) := by
  obtain ⟨ty, dat⟩ := u
  cases ty with
  | initial_status =>
      refine ⟨fun server =>
        match (updatesOf dat).find? (fun up => up.id == server.id) with
        | some up => overwriteEntry up server
        | none => server, fun l => by cases dat <;> rfl, ?_⟩
      intro x
      dsimp only
      cases hf : (updatesOf dat).find? (fun up => up.id == x.id) with
      | some up =>
          refine ⟨rfl, rfl, rfl, rfl, rfl, rfl, rfl, ?_⟩
          intro hem
          exfalso
          have hmem := List.mem_of_find?_eq_some hf
          have hpx := List.find?_some hf
          have hany : (updatesOf dat).any (fun up => up.id == x.id) = true :=
            List.any_eq_true.mpr ⟨up, hmem, hpx⟩
          unfold entryMatches at hem
          dsimp only at hem
          rw [hany] at hem
          exact Bool.noConfusion hem
      | none =>
          exact ⟨rfl, rfl, rfl, rfl, rfl, rfl, rfl, fun _ => rfl⟩
  | server_status =>
      cases dat with
      | one e =>
          refine ⟨fun server =>
            if server.id == e.id then overwriteEntry e server else server,
            fun l => rfl, ?_⟩
          intro x
          dsimp only
          by_cases hx : (x.id == e.id) = true
          · rw [if_pos hx]
            refine ⟨rfl, rfl, rfl, rfl, rfl, rfl, rfl, ?_⟩
            intro hem
            have hxx : x.id = e.id := by simpa using hx
            have hT : entryMatches
                ⟨UpdateType.server_status, UpdateData.one e⟩ x = true := by
              simp [entryMatches, updatesOf, hxx]
            rw [hT] at hem
            exact Bool.noConfusion hem
          · rw [if_neg hx]
            exact ⟨rfl, rfl, rfl, rfl, rfl, rfl, rfl, fun _ => rfl⟩
      | many es =>
          cases es with
          | nil =>
              refine ⟨id, fun l => by simp [applyStatusUpdate], ?_⟩
              intro x
              exact ⟨rfl, rfl, rfl, rfl, rfl, rfl, rfl, fun _ => rfl⟩
          | cons e rest =>
              refine ⟨fun server =>
                if server.id == e.id then overwriteEntry e server else server,
                fun l => rfl, ?_⟩
              intro x
              dsimp only
              by_cases hx : (x.id == e.id) = true
              · rw [if_pos hx]
                refine ⟨rfl, rfl, rfl, rfl, rfl, rfl, rfl, ?_⟩
                intro hem
                have hxx : x.id = e.id := by simpa using hx
                have hT : entryMatches
                    ⟨UpdateType.server_status, UpdateData.many (e :: rest)⟩ x = true := by
                  simp [entryMatches, updatesOf, hxx]
                rw [hT] at hem
                exact Bool.noConfusion hem
              · rw [if_neg hx]
                exact ⟨rfl, rfl, rfl, rfl, rfl, rfl, rfl, fun _ => rfl⟩

/-- Claim C9: applying any envelope is a pure per-element overwrite — it
never inserts or deletes entities (ids, in order, are preserved), leaves
every entity the payload does not match entirely unchanged, and on the
matched entities changes at most the mutable fields `status` and
`last_started`; in particular the spec's concrete scenario — an
`initial_status` envelope for the unknown id 99 applied to the collection
holding ids 1 and 2 — changes nothing and inserts nothing. -/
theorem C9_frame_effect (u : ServerStatusUpdate) (l : List OPCUAServer) :
    List.Forall₂ (fun old new =>
        new.id = old.id ∧ new.name = old.name ∧ new.port = old.port ∧
        new.endpoint = old.endpoint ∧ new.created_at = old.created_at ∧
        new.updated_at = old.updated_at ∧ new.nodes = old.nodes ∧
        (entryMatches u old = false → new = old))
      l (applyStatusUpdate u l) ∧
    (applyStatusUpdate u l).length = l.length ∧
    (applyStatusUpdate u l).map OPCUAServer.id = l.map OPCUAServer.id ∧
    applyStatusUpdate
      { type := UpdateType.initial_status
        data := UpdateData.many [{ id := 99, status := "running", last_started := none }] }
      [mkServer 1 "stopped", mkServer 2 "stopped"] =
      [mkServer 1 "stopped", mkServer 2 "stopped"] := by
  obtain ⟨f, hmap, hfx⟩ := applyStatusUpdate_shape u
  refine ⟨?_, ?_, ?_, by decide⟩
  · rw [hmap l]
    exact forall2_map_self _ f (fun x => hfx x) l
  · rw [hmap l]
    simp
  · rw [hmap l, List.map_map]
    exact List.map_congr_left (fun x _ => (hfx x).1)

/-- Witness for `C9_frame_effect` on a concrete incremental envelope and
collection. -/
theorem C9_frame_effect_witness :
    List.Forall₂ (fun old new =>
        new.id = old.id ∧ new.name = old.name ∧ new.port = old.port ∧
        new.endpoint = old.endpoint ∧ new.created_at = old.created_at ∧
        new.updated_at = old.updated_at ∧ new.nodes = old.nodes ∧
        (entryMatches
          { type := UpdateType.server_status
            data := UpdateData.one { id := 2, status := "running", last_started := none } }
          old = false → new = old))
      [mkServer 1 "stopped", mkServer 2 "stopped"]
      (applyStatusUpdate
        { type := UpdateType.server_status
          data := UpdateData.one { id := 2, status := "running", last_started := none } }
        [mkServer 1 "stopped", mkServer 2 "stopped"]) :=
  (C9_frame_effect
    { type := UpdateType.server_status
      data := UpdateData.one { id := 2, status := "running", last_started := none } }
    [mkServer 1 "stopped", mkServer 2 "stopped"]).1

/-! ## Claim C10 -/

/-- Concrete state whose binding is CLOSING. -/
def sClosing : MgrState :=
  { initialMgr with ws := some { bid := 0, readyState := ReadyState.CLOSING },
                    nextBindingId := 1 }

/-- Concrete state with a reconnect delay pending: the binding has been
discarded and the backoff timer armed. -/
def sPendingReconnect : MgrState :=
  (reconnect { initialMgr with
    ws := some { bid := 0, readyState := ReadyState.CLOSED },
    nextBindingId := 1 }).1

/-- Claim C10 as stated is false: `getState` can return `"CLOSING"`,
which is not one of the five ConnectionState values, and while a
reconnect delay is pending it returns `"CLOSED"`, not `"RECONNECTING"`. -/
theorem C10_counterexample :
    getState sClosing = "CLOSING" ∧
    "CLOSING" ∉ (["CLOSED", "CONNECTING", "OPEN", "RECONNECTING", "ERROR"] :
      List String) ∧
    sPendingReconnect.isReconnecting = true ∧
    sPendingReconnect.retryTimeout.isSome = true ∧
    getState sPendingReconnect = "CLOSED" ∧
    getState sPendingReconnect ≠ "RECONNECTING" := by
  refine ⟨rfl, by decide, rfl, rfl, rfl, by decide⟩

/-- Claim C10 (amended): `getState` is derived solely from the transport
binding's `readyState` — it returns `"CLOSED"`, `"CONNECTING"`, `"OPEN"`
or `"CLOSING"` (never `"RECONNECTING"` or `"ERROR"`; the source's
`'UNKNOWN'` arm is unreachable), returns `"CLOSED"` when no binding
exists, and therefore reports `"CLOSED"` — not `"RECONNECTING"` — after a
reconnect cycle has discarded the binding while its delay is pending. -/
theorem C10_getState_range (s : MgrState) :
    (getState s = "CLOSED" ∨ getState s = "CONNECTING" ∨
     getState s = "OPEN" ∨ getState s = "CLOSING") ∧
    getState s ≠ "RECONNECTING" ∧
    getState s ≠ "ERROR" ∧
    (s.ws = none → getState s = "CLOSED") ∧
    getState (reconnect s).1 = "CLOSED" := by
  have hnone : ∀ t : MgrState, t.ws = none → getState t = "CLOSED" := by
    intro t h
    simp [getState, h]
  have hrange : getState s = "CLOSED" ∨ getState s = "CONNECTING" ∨
      getState s = "OPEN" ∨ getState s = "CLOSING" := by
    cases hws : s.ws with
    | none => exact Or.inl (hnone s hws)
    | some b =>
        have hb : getState s = (match b.readyState with
          | ReadyState.CONNECTING => "CONNECTING"
          | ReadyState.OPEN => "OPEN"
          | ReadyState.CLOSING => "CLOSING"
          | ReadyState.CLOSED => "CLOSED") := by
          simp [getState, hws]
        rw [hb]
        cases b.readyState <;> simp
  have hrecon : getState (reconnect s).1 = "CLOSED" := by
    cases hws : s.ws with
    | none =>
        refine hnone _ ?_
        simp [reconnect, hws, attemptReconnect_ws]
    | some b =>
        refine hnone _ ?_
        simp [reconnect, hws, attemptReconnect_ws]
  refine ⟨hrange, ?_, ?_, hnone s, hrecon⟩
  · rcases hrange with h | h | h | h <;> rw [h] <;> decide
  · rcases hrange with h | h | h | h <;> rw [h] <;> decide

/-- Witness for `C10_getState_range`: the fresh manager state has no
binding and reports CLOSED. -/
theorem C10_getState_range_witness :
    getState initialMgr = "CLOSED" ∧ getState (reconnect initialMgr).1 = "CLOSED" :=
  ⟨(C10_getState_range initialMgr).2.2.2.1 rfl,
   (C10_getState_range initialMgr).2.2.2.2⟩

end MultiOpcS
